import Mathlib

/-!
Shallow embedding of src/utils.ts from the solana-randomness client.

Network calls are modelled by an environment record (NetworkEnv) giving the
outcome of each awaited RPC call.  Every embedded function returns the list
of network operations it performed, in order, together with its result.
A result of Except.error models a rejected promise propagating out of the
TypeScript function; Option.none (for getUserGuessFromCommandLine) and the
SetupQueueResult.exited constructor model a call to process.exit(1).
The JavaScript methods String.prototype.trim and String.prototype.toLowerCase
are embedded as String.trim and String.toLower, which agree on ASCII input.
-/

/-- Public keys are opaque identifiers in this embedding. -/
abbrev PubKey := String

/-- Embeds the module constant COMMITMENT at src/utils.ts line 13. -/
def COMMITMENT : String := "confirmed"

/-- Embeds the ad-hoc transaction-options objects passed around as txOpts. -/
structure TxOpts where
  commitment : String
  skipPreflight : Bool
  maxRetries : Nat
  deriving DecidableEq

/-- Embeds the program instructions the client builds.  The transfer
constructor embeds SystemProgram.transfer with its three fields; initIx
embeds the initialize instruction built by initializeGame; other stands for
an arbitrary opaque instruction passed to handleTransaction. -/
inductive Instruction where
  | transfer (fromPubkey toPubkey : PubKey) (lamports : Nat)
  | initIx (playerState escrowAccount user : PubKey)
  | other (tag : String)
  deriving DecidableEq

/-- Embeds the versioned transaction assembled by sb.asV0Tx, keeping the
fields the source passes to it. -/
structure V0Tx where
  ixs : List Instruction
  payer : PubKey
  signers : List PubKey
  computeUnitPrice : Nat
  computeUnitLimitMultiple : Rat
  deriving DecidableEq

/-- Embeds sb.asV0Tx as the record constructor for V0Tx. -/
def asV0Tx (ixs : List Instruction) (payer : PubKey) (signers : List PubKey)
    (computeUnitPrice : Nat) (computeUnitLimitMultiple : Rat) : V0Tx :=
  { ixs := ixs, payer := payer, signers := signers,
    computeUnitPrice := computeUnitPrice,
    computeUnitLimitMultiple := computeUnitLimitMultiple }

/-- Embeds the value returned by connection.simulateTransaction: the err
field of the simulation response value, none meaning the simulation reported
success and some detail meaning it reported an instruction-level failure. -/
structure SimResult where
  err : Option String
  deriving DecidableEq

/-- Network operations, recorded in the order the source awaits them. -/
inductive NetOp where
  | build (tx : V0Tx)
  | simulate (tx : V0Tx) (opts : TxOpts)
  | send (tx : V0Tx) (opts : TxOpts)
  | confirm (sig : String) (commitment : String)
  deriving DecidableEq

/-- Outcomes of the awaited RPC calls.  simulateOutcome is Except.error when
the simulateTransaction promise itself rejects, and Except.ok with a
SimResult when the RPC answers (the SimResult may still report a simulated
failure in its err field).  sendOutcome carries the signature returned by
sendTransaction. -/
structure NetworkEnv where
  simulateOutcome : Except String SimResult
  sendOutcome : Except String String
  confirmOutcome : Except String Unit

/-- Embeds handleTransaction (src/utils.ts lines 119 to 141): build the
versioned transaction with computeUnitPrice 75000 and
computeUnitLimitMultiple 1.3, await the simulation (binding its result
without inspecting it, exactly as the source binds sim), await
sendTransaction, await confirmTransaction at the module constant COMMITMENT,
and return the signature. -/
def handleTransaction (env : NetworkEnv) (ix : List Instruction)
    (keypairPub : PubKey) (signers : List PubKey) (txOpts : TxOpts) :
    List NetOp × Except String String :=
  let createTx := asV0Tx ix keypairPub signers 75000 ((13 : Rat) / 10)
  match env.simulateOutcome with
  | .error e => ([NetOp.build createTx, NetOp.simulate createTx txOpts], .error e)
  | .ok _sim =>
    match env.sendOutcome with
    | .error e =>
        ([NetOp.build createTx, NetOp.simulate createTx txOpts,
          NetOp.send createTx txOpts], .error e)
    | .ok sig =>
      match env.confirmOutcome with
      | .error e =>
          ([NetOp.build createTx, NetOp.simulate createTx txOpts,
            NetOp.send createTx txOpts, NetOp.confirm sig COMMITMENT], .error e)
      | .ok _ =>
          ([NetOp.build createTx, NetOp.simulate createTx txOpts,
            NetOp.send createTx txOpts, NetOp.confirm sig COMMITMENT], .ok sig)

/-- Embeds the transaction-options literal built inside initializeGame
(src/utils.ts lines 172 to 176). -/
def initializeGameTxOpts : TxOpts :=
  { commitment := "processed", skipPreflight := true, maxRetries := 0 }

/-- Embeds initializeGame (src/utils.ts lines 154 to 185): build the
initialize instruction and hand it to handleTransaction with the
processed-commitment options. -/
def initializeGame (env : NetworkEnv) (playerStateAccount : PubKey × Nat)
    (escrowAccount : PubKey) (keypairPub : PubKey) :
    List NetOp × Except String Unit :=
  let ix := Instruction.initIx playerStateAccount.1 escrowAccount keypairPub
  let r := handleTransaction env [ix] keypairPub [keypairPub] initializeGameTxOpts
  (r.1, r.2.map fun _ => ())

/-- Embeds ensureEscrowFunded (src/utils.ts lines 258 to 298).  The two
balance reads (getBalance and getMinimumBalanceForRentExemption with data
size 0) are inputs accountBalance and minRentExemption.  When the balance is
short, the source inlines the same build, simulate, send, confirm sequence
as handleTransaction, on a single transfer of the exact shortfall. -/
def ensureEscrowFunded (env : NetworkEnv) (accountBalance minRentExemption : Nat)
    (escrowAccount keypairPub : PubKey) (txOpts : TxOpts) :
    List NetOp × Except String Unit :=
  let requiredBalance := minRentExemption
  if accountBalance < requiredBalance then
    let amountToFund := requiredBalance - accountBalance
    let transferIx := Instruction.transfer keypairPub escrowAccount amountToFund
    let transferTx := asV0Tx [transferIx] keypairPub [keypairPub] 75000 ((13 : Rat) / 10)
    match env.simulateOutcome with
    | .error e => ([NetOp.build transferTx, NetOp.simulate transferTx txOpts], .error e)
    | .ok _sim3 =>
      match env.sendOutcome with
      | .error e =>
          ([NetOp.build transferTx, NetOp.simulate transferTx txOpts,
            NetOp.send transferTx txOpts], .error e)
      | .ok sig3 =>
        match env.confirmOutcome with
        | .error e =>
            ([NetOp.build transferTx, NetOp.simulate transferTx txOpts,
              NetOp.send transferTx txOpts, NetOp.confirm sig3 COMMITMENT], .error e)
        | .ok _ =>
            ([NetOp.build transferTx, NetOp.simulate transferTx txOpts,
              NetOp.send transferTx txOpts, NetOp.confirm sig3 COMMITMENT], .ok ())
  else ([], .ok ())

/-- Transfer instructions contained in one built transaction. -/
def txTransfers (tx : V0Tx) : List Instruction :=
  tx.ixs.filter fun i =>
    match i with
    | Instruction.transfer _ _ _ => true
    | _ => false

/-- Transfer instructions carried by the transactions actually submitted
(send operations) in a trace. -/
def sentTransfers (ops : List NetOp) : List Instruction :=
  ops.foldr
    (fun op acc =>
      match op with
      | NetOp.send tx _ => txTransfers tx ++ acc
      | _ => acc)
    []

/-- Drops leading whitespace characters from a character list. -/
def dropLeadingWs : List Char → List Char
  | [] => []
  | c :: cs => if c.isWhitespace then dropLeadingWs cs else c :: cs

/-- Embeds String.prototype.trim from JavaScript (restricted to the ASCII
whitespace characters, which is all the claims exercise): drop whitespace
from both ends. -/
def jsTrim (s : String) : String :=
  ⟨dropLeadingWs ((dropLeadingWs s.data.reverse).reverse)⟩

/-- Embeds String.prototype.toLowerCase from JavaScript (ASCII range). -/
def jsToLower (s : String) : String :=
  ⟨s.data.map Char.toLower⟩

/-- Embeds the effective guess string inside getUserGuessFromCommandLine:
process.argv 2 is used verbatim when present and nonempty (JavaScript
truthiness of strings), otherwise the interactive answer is trimmed and
lowercased. -/
def effectiveGuessInput (argv2 : Option String) (promptAnswer : String) : String :=
  match argv2 with
  | none => jsToLower (jsTrim promptAnswer)
  | some s => if s = "" then jsToLower (jsTrim promptAnswer) else s

/-- Embeds getUserGuessFromCommandLine (src/utils.ts lines 89 to 107).
argv2 is process.argv 2 (none when absent); promptAnswer is what
readline-sync would answer if prompted.  The function performs no network
operation; none embeds the console.error plus process.exit(1) path. -/
def getUserGuessFromCommandLine (argv2 : Option String) (promptAnswer : String) :
    Option Bool :=
  let userGuessInput := effectiveGuessInput argv2 promptAnswer
  let isValidGuess := userGuessInput == "heads" || userGuessInput == "tails"
  if isValidGuess then some (userGuessInput == "heads") else none

/-- Embeds the queue account obtained from sb.getDefaultQueue: its public
key and the outcome of awaiting loadData. -/
structure QueueAccount where
  pubkey : PubKey
  loadDataOutcome : Except String Unit

/-- Result of setupQueue: either the process exits with a diagnostic on
standard error, or the function returns the queue public key. -/
inductive SetupQueueResult where
  | exited (message : String)
  | returned (pubkey : PubKey)
  deriving DecidableEq

/-- Embeds setupQueue (src/utils.ts lines 70 to 82): await loadData; on any
rejection print the operator-facing diagnostic and call process.exit(1);
otherwise return the queue public key. -/
def setupQueue (queueAccount : QueueAccount) : SetupQueueResult :=
  match queueAccount.loadDataOutcome with
  | .error _ =>
      SetupQueueResult.exited "Queue not found, ensure you are using devnet in your env"
  | .ok _ => SetupQueueResult.returned queueAccount.pubkey

example : getUserGuessFromCommandLine (some "heads") "x" = some true := by decide
example : getUserGuessFromCommandLine none "  TAILS " = some false := by decide
example : getUserGuessFromCommandLine (some "Heads ") "x" = none := by decide
example : getUserGuessFromCommandLine (some "") "heads" = some true := by decide

/-- Environment in which every RPC call succeeds and the simulation reports
no failure. -/
def okEnv : NetworkEnv :=
  { simulateOutcome := Except.ok { err := none },
    sendOutcome := Except.ok "sigOK",
    confirmOutcome := Except.ok () }

/-- Environment in which the simulation RPC answers normally but the answer
reports an instruction-level failure, and the network otherwise accepts the
transaction. -/
def simFailEnv : NetworkEnv :=
  { simulateOutcome := Except.ok { err := some "custom program error 0x1" },
    sendOutcome := Except.ok "sig123",
    confirmOutcome := Except.ok () }

/-- Environment in which the simulateTransaction promise itself rejects. -/
def simRejectEnv : NetworkEnv :=
  { simulateOutcome := Except.error "rpc connection refused",
    sendOutcome := Except.ok "sigNever",
    confirmOutcome := Except.ok () }

/-- Characterization of getUserGuessFromCommandLine in terms of the
effective guess string. -/
theorem getUserGuess_eq_ite (argv2 : Option String) (p : String) :
    getUserGuessFromCommandLine argv2 p =
      if effectiveGuessInput argv2 p = "heads" then some true
      else if effectiveGuessInput argv2 p = "tails" then some false
      else none := by
  by_cases h1 : effectiveGuessInput argv2 p = "heads" <;>
  by_cases h2 : effectiveGuessInput argv2 p = "tails" <;>
  simp_all [getUserGuessFromCommandLine]

/-- C2 counterexample: the input chosen by the claim and the spec scenario,
mixed case with trailing whitespace, does normalize to heads, yet when given
as the positional command-line argument getUserGuessFromCommandLine rejects
it (returns none, the process-exit path) instead of accepting it as true:
the command-line path performs no trimming or lowercasing. -/
theorem guess_cli_arg_mixed_case_rejected :
    jsToLower (jsTrim "Heads ") = "heads"
    ∧ getUserGuessFromCommandLine (some "Heads ") "tails" = none := by
  exact ⟨by decide, by decide⟩

/-- C2 amended: trimming and lowercasing happen only on the
interactive-prompt path; on that path any case and whitespace variant of
heads or tails is accepted, while the positional command-line argument is
compared verbatim, so there only the exact strings heads and tails are
accepted. -/
theorem guess_normalized_only_on_prompt_path (s p : String) :
    (getUserGuessFromCommandLine none p = some true ↔ jsToLower (jsTrim p) = "heads")
    ∧ (getUserGuessFromCommandLine none p = some false ↔ jsToLower (jsTrim p) = "tails")
    ∧ (s ≠ "" →
        (getUserGuessFromCommandLine (some s) p = some true ↔ s = "heads")
        ∧ (getUserGuessFromCommandLine (some s) p = some false ↔ s = "tails")) := by
  refine ⟨?_, ?_, fun hs => ⟨?_, ?_⟩⟩
  · rw [getUserGuess_eq_ite]
    simp only [effectiveGuessInput]
    split_ifs <;> simp_all
  · rw [getUserGuess_eq_ite]
    simp only [effectiveGuessInput]
    split_ifs <;> simp_all
  · rw [getUserGuess_eq_ite]
    simp only [effectiveGuessInput, if_neg hs]
    split_ifs <;> simp_all
  · rw [getUserGuess_eq_ite]
    simp only [effectiveGuessInput, if_neg hs]
    split_ifs <;> simp_all

/-- C2 amended witness: the prompt path accepts a mixed-case padded heads,
and the command-line path accepts exactly heads. -/
theorem guess_normalized_only_on_prompt_path_witness :
    (getUserGuessFromCommandLine none " Heads  " = some true
      ↔ jsToLower (jsTrim " Heads  ") = "heads")
    ∧ (getUserGuessFromCommandLine (some "tails") "x" = some false ↔ "tails" = "tails") :=
  ⟨(guess_normalized_only_on_prompt_path "tails" " Heads  ").1,
   ((guess_normalized_only_on_prompt_path "tails" " Heads  ").2.2 (by decide)).2⟩

/-- C3: for every input path, the effective guess string heads maps to true
and tails maps to false, and every other effective input is rejected on the
console-error-and-process-exit path (none); the function performs no
network operation at all (its embedding emits no NetOp), so rejection
happens before any network interaction. -/
theorem guess_heads_true_tails_false_other_fatal (argv2 : Option String) (p : String) :
    (getUserGuessFromCommandLine argv2 p = some true
      ↔ effectiveGuessInput argv2 p = "heads")
    ∧ (getUserGuessFromCommandLine argv2 p = some false
      ↔ effectiveGuessInput argv2 p = "tails")
    ∧ (getUserGuessFromCommandLine argv2 p = none
      ↔ (effectiveGuessInput argv2 p ≠ "heads" ∧ effectiveGuessInput argv2 p ≠ "tails")) := by
  by_cases h1 : effectiveGuessInput argv2 p = "heads" <;>
  by_cases h2 : effectiveGuessInput argv2 p = "tails" <;>
  simp_all [getUserGuessFromCommandLine]

/-- C10: an empty positional argument is falsy in JavaScript, so the
function behaves exactly as if the argument were absent and falls back to
the prompt; a nonempty positional argument is validated verbatim with no
normalization; the prompt answer is trimmed and lowercased before
validation. -/
theorem guess_empty_arg_falls_back_cli_verbatim (s p : String) :
    getUserGuessFromCommandLine (some "") p = getUserGuessFromCommandLine none p
    ∧ (s ≠ "" →
        getUserGuessFromCommandLine (some s) p
          = if s = "heads" then some true
            else if s = "tails" then some false else none)
    ∧ getUserGuessFromCommandLine none p
        = (if jsToLower (jsTrim p) = "heads" then some true
           else if jsToLower (jsTrim p) = "tails" then some false else none) := by
  refine ⟨rfl, fun hs => ?_, ?_⟩
  · rw [getUserGuess_eq_ite]
    simp only [effectiveGuessInput, if_neg hs]
  · rw [getUserGuess_eq_ite]
    simp only [effectiveGuessInput]

/-- C10 witness: an empty argument with prompt answer heads is accepted via
the fallback, and a nonempty argument TAILS is rejected verbatim. -/
theorem guess_empty_arg_falls_back_cli_verbatim_witness :
    getUserGuessFromCommandLine (some "") "heads" = getUserGuessFromCommandLine none "heads"
    ∧ getUserGuessFromCommandLine (some "TAILS") "heads" = none :=
  ⟨(guess_empty_arg_falls_back_cli_verbatim "TAILS" "heads").1, by
    have h := (guess_empty_arg_falls_back_cli_verbatim "TAILS" "heads").2.1 (by decide)
    simpa using h⟩

/-- C8: if awaiting loadData on the default queue account rejects,
setupQueue prints the operator-facing diagnostic and exits the process
(the exited result); if it succeeds, setupQueue returns the queue public
key. -/
theorem setupQueue_fatal_or_pubkey (q : QueueAccount) :
    (∀ e, q.loadDataOutcome = Except.error e →
        setupQueue q
          = SetupQueueResult.exited "Queue not found, ensure you are using devnet in your env")
    ∧ (∀ u, q.loadDataOutcome = Except.ok u →
        setupQueue q = SetupQueueResult.returned q.pubkey) := by
  constructor
  · intro e he
    simp [setupQueue, he]
  · intro u hu
    simp [setupQueue, hu]

/-- Sample transaction options for concrete witnesses, matching the
options literal the client passes at its call sites. -/
def sampleOpts : TxOpts :=
  { commitment := "processed", skipPreflight := true, maxRetries := 0 }

/-- Sample versioned transaction as handleTransaction builds it for one
opaque coin-flip instruction. -/
def c1tx : V0Tx :=
  asV0Tx [Instruction.other "coinFlipIx"] "payer" ["payer"] 75000 ((13 : Rat) / 10)

/-- C1 counterexample: in an environment where the dry-run simulation
answers with a reported instruction-level failure, handleTransaction still
submits the transaction (the send operation is performed) and returns the
signature: the bound simulation result is never inspected, so a reported
simulation failure does not abort the operation. -/
theorem handleTransaction_sends_despite_reported_sim_failure :
    simFailEnv.simulateOutcome = Except.ok { err := some "custom program error 0x1" }
    ∧ handleTransaction simFailEnv [Instruction.other "coinFlipIx"] "payer" ["payer"] sampleOpts
      = ([NetOp.build c1tx, NetOp.simulate c1tx sampleOpts, NetOp.send c1tx sampleOpts,
          NetOp.confirm "sig123" COMMITMENT], Except.ok "sig123") :=
  ⟨rfl, rfl⟩

/-- C1 amended: handleTransaction aborts before sendTransaction only when
the simulateTransaction call itself rejects, in which case that rejection
is the reported failure; when the simulation call answers, the transaction
is submitted regardless of whether the answer reports a failure, because
the simulation result is bound but never inspected. -/
theorem handleTransaction_submits_unless_simulate_rejects
    (env : NetworkEnv) (ix : List Instruction) (keypairPub : PubKey)
    (signers : List PubKey) (txOpts : TxOpts) :
    (∀ e, env.simulateOutcome = Except.error e →
      (handleTransaction env ix keypairPub signers txOpts).2 = Except.error e
      ∧ ∀ tx o, NetOp.send tx o ∉ (handleTransaction env ix keypairPub signers txOpts).1)
    ∧ (∀ sim, env.simulateOutcome = Except.ok sim →
      NetOp.send (asV0Tx ix keypairPub signers 75000 ((13 : Rat) / 10)) txOpts
        ∈ (handleTransaction env ix keypairPub signers txOpts).1) := by
  constructor
  · intro e he
    constructor <;> simp [handleTransaction, he]
  · intro sim hsim
    rcases hsend : env.sendOutcome with e | sig <;>
    rcases hconf : env.confirmOutcome with e2 | u <;>
    simp [handleTransaction, hsim, hsend, hconf]

/-- C1 amended witness: a rejected simulation call aborts with that error,
while a simulation answering with a reported failure still leads to the
send operation. -/
theorem handleTransaction_submits_unless_simulate_rejects_witness :
    (handleTransaction simRejectEnv [Instruction.other "coinFlipIx"] "payer" ["payer"]
        sampleOpts).2 = Except.error "rpc connection refused"
    ∧ NetOp.send c1tx sampleOpts
      ∈ (handleTransaction simFailEnv [Instruction.other "coinFlipIx"] "payer" ["payer"]
          sampleOpts).1 :=
  ⟨((handleTransaction_submits_unless_simulate_rejects simRejectEnv
      [Instruction.other "coinFlipIx"] "payer" ["payer"] sampleOpts).1
      "rpc connection refused" rfl).1,
   (handleTransaction_submits_unless_simulate_rejects simFailEnv
      [Instruction.other "coinFlipIx"] "payer" ["payer"] sampleOpts).2
      { err := some "custom program error 0x1" } rfl⟩

/-- C6: whenever handleTransaction succeeds, its network operations are
exactly Build, Simulate, Submit, Confirm, in that order with no step
skipped, and the returned value is the signature obtained from
sendTransaction, which the confirm step confirmed. -/
theorem handleTransaction_protocol_order
    (env : NetworkEnv) (ix : List Instruction) (keypairPub : PubKey)
    (signers : List PubKey) (txOpts : TxOpts) (sig : String)
    (h : (handleTransaction env ix keypairPub signers txOpts).2 = Except.ok sig) :
    (handleTransaction env ix keypairPub signers txOpts).1
      = [NetOp.build (asV0Tx ix keypairPub signers 75000 ((13 : Rat) / 10)),
         NetOp.simulate (asV0Tx ix keypairPub signers 75000 ((13 : Rat) / 10)) txOpts,
         NetOp.send (asV0Tx ix keypairPub signers 75000 ((13 : Rat) / 10)) txOpts,
         NetOp.confirm sig COMMITMENT]
    ∧ env.sendOutcome = Except.ok sig := by
  rcases hsim : env.simulateOutcome with e | sim <;>
  rcases hsend : env.sendOutcome with e2 | sig2 <;>
  rcases hconf : env.confirmOutcome with e3 | u <;>
  simp_all [handleTransaction]

/-- C6 witness: in the all-success environment the four steps happen in
order and the signature from the send step is returned. -/
theorem handleTransaction_protocol_order_witness :
    (handleTransaction okEnv [Instruction.other "settleFlipIx"] "payer" ["payer"] sampleOpts).1
      = [NetOp.build (asV0Tx [Instruction.other "settleFlipIx"] "payer" ["payer"]
           75000 ((13 : Rat) / 10)),
         NetOp.simulate (asV0Tx [Instruction.other "settleFlipIx"] "payer" ["payer"]
           75000 ((13 : Rat) / 10)) sampleOpts,
         NetOp.send (asV0Tx [Instruction.other "settleFlipIx"] "payer" ["payer"]
           75000 ((13 : Rat) / 10)) sampleOpts,
         NetOp.confirm "sigOK" COMMITMENT]
    ∧ okEnv.sendOutcome = Except.ok "sigOK" :=
  handleTransaction_protocol_order okEnv [Instruction.other "settleFlipIx"] "payer" ["payer"]
    sampleOpts "sigOK" rfl

/-- Sample versioned transaction as initializeGame builds it. -/
def c7tx : V0Tx :=
  asV0Tx [Instruction.initIx "playerStatePk" "escrowPk" "userPk"] "userPk" ["userPk"]
    75000 ((13 : Rat) / 10)

/-- C7 counterexample: initializeGame does pass commitment processed in its
transaction options, yet the confirmation step of its own run still waits
at commitment confirmed, the module constant, not at processed: the options
commitment only reaches the simulate and send calls. -/
theorem initializeGame_confirms_at_confirmed_not_processed :
    initializeGameTxOpts.commitment = "processed"
    ∧ (initializeGame okEnv ("playerStatePk", 255) "escrowPk" "userPk").1
      = [NetOp.build c7tx, NetOp.simulate c7tx initializeGameTxOpts,
         NetOp.send c7tx initializeGameTxOpts, NetOp.confirm "sigOK" "confirmed"]
    ∧ ("confirmed" : String) ≠ "processed" :=
  ⟨rfl, rfl, by decide⟩

/-- C7 amended: confirmTransaction is always awaited at the fixed module
constant COMMITMENT, which is confirmed, for every flow including the
Initialize step and the escrow funding transfer; initializeGame passes the
weaker processed commitment in its transaction options, but those options
reach only the simulate and send calls, never the confirmation. -/
theorem confirmation_always_at_fixed_confirmed
    (env env2 : NetworkEnv) (ix : List Instruction) (kp kp2 esc : PubKey)
    (signers : List PubKey) (opts opts2 : TxOpts) (b t : Nat) :
    COMMITMENT = "confirmed"
    ∧ initializeGameTxOpts.commitment = "processed"
    ∧ (∀ sig c, NetOp.confirm sig c ∈ (handleTransaction env ix kp signers opts).1 →
        c = COMMITMENT)
    ∧ (∀ sig c, NetOp.confirm sig c ∈ (ensureEscrowFunded env2 b t esc kp2 opts2).1 →
        c = COMMITMENT) := by
  refine ⟨rfl, rfl, ?_, ?_⟩
  · intro sig c hc
    rcases hsim : env.simulateOutcome with e | sim <;>
    rcases hsend : env.sendOutcome with e2 | sig2 <;>
    rcases hconf : env.confirmOutcome with e3 | u <;>
    simp_all [handleTransaction]
  · intro sig c hc
    by_cases hb : b < t <;>
    rcases hsim : env2.simulateOutcome with e | sim <;>
    rcases hsend : env2.sendOutcome with e2 | sig2 <;>
    rcases hconf : env2.confirmOutcome with e3 | u <;>
    simp_all [ensureEscrowFunded]

/-- C7 amended witness: the confirm operation performed in the all-success
environment carries commitment confirmed. -/
theorem confirmation_always_at_fixed_confirmed_witness :
    ("confirmed" : String) = COMMITMENT :=
  (confirmation_always_at_fixed_confirmed okEnv okEnv [Instruction.other "ixW"] "payer"
      "payer" "escrowPk" ["payer"] sampleOpts sampleOpts 0 890880).2.2.1 "sigOK" "confirmed"
    (by exact List.mem_cons_of_mem _ (List.mem_cons_of_mem _ (List.mem_cons_of_mem _
      (List.mem_cons_self _ _))))

/-- C9: every versioned transaction the client builds, in handleTransaction
and in the escrow funding transfer of ensureEscrowFunded alike, carries the
fixed compute-unit price 75000 and the compute-unit-limit headroom
multiplier 1.3. -/
theorem builds_carry_compute_budget
    (env env2 : NetworkEnv) (ix : List Instruction) (kp kp2 esc : PubKey)
    (signers : List PubKey) (opts opts2 : TxOpts) (b t : Nat) (tx : V0Tx)
    (h : NetOp.build tx ∈ (handleTransaction env ix kp signers opts).1
      ∨ NetOp.build tx ∈ (ensureEscrowFunded env2 b t esc kp2 opts2).1) :
    tx.computeUnitPrice = 75000 ∧ tx.computeUnitLimitMultiple = (13 : Rat) / 10 := by
  rcases h with h | h
  · rcases hsim : env.simulateOutcome with e | sim <;>
    rcases hsend : env.sendOutcome with e2 | sig2 <;>
    rcases hconf : env.confirmOutcome with e3 | u <;>
    simp_all [handleTransaction, asV0Tx]
  · by_cases hb : b < t <;>
    rcases hsim : env2.simulateOutcome with e | sim <;>
    rcases hsend : env2.sendOutcome with e2 | sig2 <;>
    rcases hconf : env2.confirmOutcome with e3 | u <;>
    simp_all [ensureEscrowFunded, asV0Tx]

/-- C9 witness: the transaction built in the all-success environment
carries price 75000 and multiplier 1.3. -/
theorem builds_carry_compute_budget_witness :
    c1tx.computeUnitPrice = 75000 ∧ c1tx.computeUnitLimitMultiple = (13 : Rat) / 10 :=
  builds_carry_compute_budget okEnv okEnv [Instruction.other "coinFlipIx"] "payer" "payer"
    "escrowPk" ["payer"] sampleOpts sampleOpts 0 890880 c1tx
    (Or.inl (List.mem_cons_self _ _))

/-- C4: whenever the escrow balance is strictly below the rent-exemption
threshold and the network accepts the transfer, ensureEscrowFunded submits
exactly one transfer instruction, moving exactly the shortfall from the
funding keypair to the escrow account, after which the balance equals the
threshold; and its network operations are exactly the operations
handleTransaction (the transaction executor) performs for that single
transfer instruction. -/
theorem ensureEscrowFunded_transfers_exact_shortfall
    (env : NetworkEnv) (accountBalance minRentExemption : Nat)
    (escrowAccount keypairPub : PubKey) (txOpts : TxOpts) (sim : SimResult) (sig : String)
    (hb : accountBalance < minRentExemption)
    (hsim : env.simulateOutcome = Except.ok sim)
    (hsend : env.sendOutcome = Except.ok sig) :
    sentTransfers (ensureEscrowFunded env accountBalance minRentExemption
        escrowAccount keypairPub txOpts).1
      = [Instruction.transfer keypairPub escrowAccount (minRentExemption - accountBalance)]
    ∧ accountBalance + (minRentExemption - accountBalance) = minRentExemption
    ∧ (ensureEscrowFunded env accountBalance minRentExemption escrowAccount keypairPub
        txOpts).1
      = (handleTransaction env
          [Instruction.transfer keypairPub escrowAccount (minRentExemption - accountBalance)]
          keypairPub [keypairPub] txOpts).1 := by
  refine ⟨?_, Nat.add_sub_cancel' (Nat.le_of_lt hb), ?_⟩ <;>
    rcases hconf : env.confirmOutcome with e | u <;>
    simp [ensureEscrowFunded, handleTransaction, sentTransfers, txTransfers,
      asV0Tx, List.filter, hb, hsim, hsend, hconf]

/-- C4 witness: the spec scenario with balance zero and threshold 890880
lamports transfers exactly 890880 lamports, and the final balance equals
the threshold. -/
theorem ensureEscrowFunded_transfers_exact_shortfall_witness :
    sentTransfers (ensureEscrowFunded okEnv 0 890880 "escrowPk" "payer" sampleOpts).1
      = [Instruction.transfer "payer" "escrowPk" 890880]
    ∧ (0 : Nat) + 890880 = 890880 := by
  have h := ensureEscrowFunded_transfers_exact_shortfall okEnv 0 890880 "escrowPk" "payer"
    sampleOpts { err := none } "sigOK" (by decide) rfl rfl
  exact ⟨h.1, h.2.1⟩

/-- C5: when the escrow balance already meets the threshold,
ensureEscrowFunded performs no network operation at all and returns
successfully, and in particular issues zero transfer instructions; hence a
second call immediately after a successful funding call, whose balance is
the old balance plus the transferred shortfall, also issues no transfer. -/
theorem ensureEscrowFunded_idempotent_noop
    (env env2 : NetworkEnv) (accountBalance minRentExemption : Nat)
    (escrowAccount keypairPub : PubKey) (txOpts txOpts2 : TxOpts) :
    (minRentExemption ≤ accountBalance →
      ensureEscrowFunded env accountBalance minRentExemption escrowAccount keypairPub txOpts
        = ([], Except.ok ()))
    ∧ (ensureEscrowFunded env2 (accountBalance + (minRentExemption - accountBalance))
        minRentExemption escrowAccount keypairPub txOpts2).1 = []
    ∧ sentTransfers (ensureEscrowFunded env2
        (accountBalance + (minRentExemption - accountBalance))
        minRentExemption escrowAccount keypairPub txOpts2).1 = [] := by
  have h2 : ¬ (accountBalance + (minRentExemption - accountBalance) < minRentExemption) := by
    omega
  refine ⟨fun h => ?_, ?_, ?_⟩
  · simp [ensureEscrowFunded, Nat.not_lt.mpr h]
  · simp [ensureEscrowFunded, h2]
  · simp [ensureEscrowFunded, h2, sentTransfers]

/-- C5 witness: a call at exactly the threshold is a no-op. -/
theorem ensureEscrowFunded_idempotent_noop_witness :
    ensureEscrowFunded okEnv 890880 890880 "escrowPk" "payer" sampleOpts
      = ([], Except.ok ()) :=
  (ensureEscrowFunded_idempotent_noop okEnv okEnv 890880 890880 "escrowPk" "payer"
    sampleOpts sampleOpts).1 (Nat.le_refl _)

/-- C8 witness: a queue whose load fails exits with the diagnostic, and a
queue that loads returns its public key. -/
theorem setupQueue_fatal_or_pubkey_witness :
    setupQueue { pubkey := "queuePk", loadDataOutcome := Except.error "account not found" }
      = SetupQueueResult.exited "Queue not found, ensure you are using devnet in your env"
    ∧ setupQueue { pubkey := "queuePk", loadDataOutcome := Except.ok () }
      = SetupQueueResult.returned "queuePk" :=
  ⟨(setupQueue_fatal_or_pubkey _).1 "account not found" rfl,
   (setupQueue_fatal_or_pubkey _).2 () rfl⟩
